import Mathlib

/-!
Verification of the zerowidth-agent chat widget.

The repository is a small React chat widget (`pages/index.js`, also the
variant in `src/unnamed/part_000`) that forwards user messages through a
same-origin proxy endpoint to a hosted conversational API.  This file is a
shallow embedding of the logic the specification talks about:

* message and conversation data model,
* `submitMessage` (validation, append of the user message, request payload
  construction, fetch outcome handling, error handling, loading flag),
* the identifier bootstrap `getSessionId` / `getUserId`,
* the other widget state transitions (input editing, prompt rotation,
  loading animation), and
* the proxy method check (modelled from the spec, since `pages/api/proxy.js`
  is not among the available sources).

Stateful React hooks become explicit state passing on `WidgetState`; the
asynchronous fetch becomes an explicit `FetchResult` argument describing the
outcome of the network round trip; the ordering guarantee that the user
message is appended before the network call is captured by splitting
`submitMessage` into a pre-fetch phase (everything before `fetch`) and a
post-fetch phase (the code resumed with the response), composed so that the
request payload handed to the network is produced by the pre-fetch phase.
-/

/-- JavaScript `String.prototype.trim`: remove leading and trailing
whitespace.  Embedded on the character list so it evaluates by `decide`. -/
def jsTrim (s : String) : String :=
  ⟨((s.data.dropWhile Char.isWhitespace).reverse.dropWhile Char.isWhitespace).reverse⟩

/-- One chat message: `{ role, content }` as built in `submitMessage`
(`role` is `"user"` or `"agent"`). -/
structure Message where
  role : String
  content : String
deriving DecidableEq, Repr

/-- The widget state held in React `useState` hooks in the component
(`message`, `conversation`, `error`, `isLoading`, `loadingStep`,
`currentPromptIndex`, `promptVisible`, `sessionId`, `userId`). -/
structure WidgetState where
  message : String
  conversation : List Message
  error : Option String
  isLoading : Bool
  loadingStep : Nat
  currentPromptIndex : Nat
  promptVisible : Bool
  sessionId : String
  userId : String
deriving DecidableEq, Repr

/-- The initial hook values: empty input, empty conversation, no error,
not loading, loading step 1, prompt index 0, prompt visible, empty ids. -/
def initialState : WidgetState :=
  { message := ""
    conversation := []
    error := none
    isLoading := false
    loadingStep := 1
    currentPromptIndex := 0
    promptVisible := true
    sessionId := ""
    userId := "" }

/-- The request payload built by `submitMessage`:
`{ data: { message }, stateful: true, stream: false, user_id, session_id,
verbose: false }`. -/
structure RequestPayload where
  message : Message
  stateful : Bool
  stream : Bool
  user_id : String
  session_id : String
  verbose : Bool
deriving DecidableEq, Repr

/-- `output_data` of the response envelope; `content` is `none` when the
field is absent. -/
structure OutputData where
  content : Option String
deriving DecidableEq, Repr

/-- A parsed JSON response body; `output_data` is `none` when absent. -/
structure ResponseBody where
  output_data : Option OutputData
deriving DecidableEq, Repr

/-- Outcome of `res.json()`: either a parse failure (the thrown message) or
a parsed body. -/
inductive BodyResult where
  | parseError (message : String)
  | parsed (body : ResponseBody)
deriving DecidableEq, Repr

/-- Outcome of the `fetch` round trip: either a network failure (the thrown
message) or an HTTP response with a status code and a body. -/
inductive FetchResult where
  | networkError (message : String)
  | response (status : Nat) (body : BodyResult)
deriving DecidableEq, Repr

/-- `res.ok`: status in the range 200-299. -/
def statusOk (status : Nat) : Bool :=
  200 ≤ status && status < 300

/-- The literal fallback reply used when `output_data.content` is missing
or empty. -/
def noValidResponse : String := "No valid response received from agent."

/-- The user message object `{ role: "user", content: userInput.trim() }`. -/
def userMessageOf (userInput : String) : Message :=
  { role := "user", content := jsTrim userInput }

/-- The truthiness extraction
`data.output_data && data.output_data.content ? data.output_data.content
: "No valid response received from agent."`; an empty string is falsy in
JavaScript, hence also replaced by the fallback. -/
def extractAgentReply (body : ResponseBody) : String :=
  match body.output_data with
  | none => noValidResponse
  | some od =>
    match od.content with
    | none => noValidResponse
    | some c => if c = "" then noValidResponse else c

/-- Everything `submitMessage` does before any network activity: return
unchanged with no payload when the trimmed input is empty; otherwise clear
the input, clear the error, append the user message, set the loading flag,
and build the request payload for the fetch. -/
def submitMessagePre (st : WidgetState) (userInput : String) :
    WidgetState × Option RequestPayload :=
  if jsTrim userInput = "" then (st, none)
  else
    let userMessage := userMessageOf userInput
    ({ st with
        message := ""
        error := none
        conversation := st.conversation ++ [userMessage]
        isLoading := true },
      some { message := userMessage
             stateful := true
             stream := false
             user_id := st.userId
             session_id := st.sessionId
             verbose := false })

/-- The continuation of `submitMessage` after the fetch settles: on a
non-ok status the thrown `Server error: <status>` is caught and stored in
the error state; a network or parse failure stores the thrown message; on
success the agent message is appended and the input cleared again; the
`finally` block clears the loading flag on every path. -/
def submitMessagePost (st : WidgetState) (r : FetchResult) : WidgetState :=
  let afterTry :=
    match r with
    | .networkError msg => { st with error := some msg }
    | .response status body =>
      if statusOk status then
        match body with
        | .parseError msg => { st with error := some msg }
        | .parsed data =>
          { st with
              conversation :=
                st.conversation ++ [({ role := "agent", content := extractAgentReply data } : Message)]
              message := "" }
      else
        { st with error := some ("Server error: " ++ toString status) }
  { afterTry with isLoading := false }

/-- The whole of `submitMessage`: the pre-fetch phase, then, exactly when a
payload was produced (i.e. the fetch was issued), the post-fetch phase on
the outcome `r`.  The second component records the payload sent to
`/api/proxy`, `none` meaning no network call occurred. -/
def submitMessage (st : WidgetState) (userInput : String) (r : FetchResult) :
    WidgetState × Option RequestPayload :=
  match submitMessagePre st userInput with
  | (st1, none) => (st1, none)
  | (st1, some payload) => (submitMessagePost st1 r, some payload)

/-- The textual description of a failed round trip, mirroring the `catch`
argument of `submitMessage`: the network failure message, the
`Server error: <status>` text thrown on a non-ok status (checked before the
body is parsed), or the JSON parse failure message; `none` on success. -/
def failureDescription : FetchResult → Option String
  | .networkError msg => some msg
  | .response status body =>
    if statusOk status then
      match body with
      | .parseError msg => some msg
      | .parsed _ => none
    else
      some ("Server error: " ++ toString status)

/-- The id generated when none is stored: take the fresh `uuidv4()` string,
remove every dash (the `replace` with the global dash pattern), and keep at
most the first 32 characters (`slice(0, 32)`). -/
def generateId (fresh : String) : String :=
  ⟨(fresh.data.filter (fun c => c ≠ '-')).take 32⟩

/-- The stored-value check `stored && stored.length <= 32 ? stored : null`:
a missing, empty, or longer-than-32 stored value counts as absent. -/
def validStored (stored : Option String) : Option String :=
  match stored with
  | none => none
  | some s => if s = "" then none else if s.length ≤ 32 then some s else none

/-- `getSessionId`: with no `window` (server-side rendering) return the
empty id and write nothing; otherwise return the valid stored id, or
generate a fresh one and write it to `sessionStorage` (the second component
is the value passed to `setItem`, `none` when no write happens). -/
def getSessionId (hasWindow : Bool) (stored : Option String) (fresh : String) :
    String × Option String :=
  if hasWindow then
    match validStored stored with
    | some s => (s, none)
    | none => (generateId fresh, some (generateId fresh))
  else ("", none)

/-- `getUserId`: identical logic to `getSessionId`, against the
origin-scoped `localStorage` instead of the tab-scoped `sessionStorage`. -/
def getUserId (hasWindow : Bool) (stored : Option String) (fresh : String) :
    String × Option String :=
  if hasWindow then
    match validStored stored with
    | some s => (s, none)
    | none => (generateId fresh, some (generateId fresh))
  else ("", none)

/-- The storage contents after a bootstrap call: the written value when
`setItem` was called, otherwise the previous contents. -/
def storageAfter (stored : Option String) (written : Option String) : Option String :=
  match written with
  | some v => some v
  | none => stored

/-- `chatConfig.suggestedPrompts` from `config/config.js`. -/
def suggestedPrompts : List String :=
  ["Tell me about your design work"
   , "What projects are you proud of?"
   , "How can I collaborate with you?"
   , "What\x27s your design philosophy?"]

/-- The state transitions the widget can perform: a full `submitMessage`
run (with the outcome of its fetch), editing the input field, the mount
effect that fills in the ids, the two halves of the suggested-prompt
rotation, and the loading-animation tick and reset. -/
inductive WidgetOp where
  | submit (userInput : String) (r : FetchResult)
  | setInput (s : String)
  | initIds (sid uid : String)
  | rotateFadeOut
  | rotateAdvance
  | loadingTick
  | loadingReset
deriving DecidableEq, Repr

/-- Apply one widget state transition. -/
def applyOp : WidgetOp → WidgetState → WidgetState
  | .submit userInput r, st => (submitMessage st userInput r).1
  | .setInput s, st => { st with message := s }
  | .initIds sid uid, st => { st with sessionId := sid, userId := uid }
  | .rotateFadeOut, st => { st with promptVisible := false }
  | .rotateAdvance, st =>
    { st with
        currentPromptIndex := (st.currentPromptIndex + 1) % suggestedPrompts.length
        promptVisible := true }
  | .loadingTick, st =>
    { st with loadingStep := if st.loadingStep ≥ 5 then 1 else st.loadingStep + 1 }
  | .loadingReset, st => { st with loadingStep := 1 }

/-- Apply a sequence of widget state transitions, oldest first. -/
def applyOps (ops : List WidgetOp) (st : WidgetState) : WidgetState :=
  ops.foldl (fun s op => applyOp op s) st

/-- Modelled from the spec: the Proxy Endpoint handler (`pages/api/proxy.js`)
is not among the available sources, only its contract in the specification.
It must reject any non-POST method with HTTP 405 and perform no upstream
call; on POST it relays the upstream status.  `upstreamCalled` records
whether the external API was invoked. -/
structure ProxyResult where
  status : Nat
  upstreamCalled : Bool
deriving DecidableEq, Repr

/-- Modelled from the spec: the method dispatch of the Proxy Endpoint. -/
def proxyHandler (method : String) (upstreamStatus : Nat) : ProxyResult :=
  if method = "POST" then { status := upstreamStatus, upstreamCalled := true }
  else { status := 405, upstreamCalled := false }

/-- The length of a generated id never exceeds 32 characters. -/
theorem generateId_length_le (fresh : String) : (generateId fresh).length ≤ 32 := by
  have h : (generateId fresh).length
      = ((fresh.data.filter (fun c => c ≠ '-')).take 32).length := rfl
  rw [h, List.length_take]
  exact min_le_left _ _

/-- A stored value accepted by the bootstrap check has length at most 32. -/
theorem validStored_length_le (stored : Option String) (s : String)
    (h : validStored stored = some s) : s.length ≤ 32 := by
  cases stored with
  | none => exact absurd h (by simp [validStored])
  | some t =>
    by_cases h0 : t = ""
    · simp [validStored, h0] at h
    · by_cases h32 : t.length ≤ 32
      · simp [validStored, h0, h32] at h
        exact h ▸ h32
      · simp [validStored, h0, h32] at h

/-- Each single widget transition leaves the conversation unchanged or
extends it at the end. -/
theorem applyOp_conversation_extends (op : WidgetOp) (st : WidgetState) :
    ∃ tail, (applyOp op st).conversation = st.conversation ++ tail := by
  cases op with
  | submit userInput r =>
    by_cases h : jsTrim userInput = ""
    · exact ⟨[], by simp [applyOp, submitMessage, submitMessagePre, h]⟩
    · cases r with
      | networkError msg =>
        exact ⟨[userMessageOf userInput],
          by simp [applyOp, submitMessage, submitMessagePre, submitMessagePost, h]⟩
      | response status body =>
        by_cases hok : statusOk status = true
        · cases body with
          | parseError msg =>
            exact ⟨[userMessageOf userInput],
              by simp [applyOp, submitMessage, submitMessagePre, submitMessagePost, h, hok]⟩
          | parsed data =>
            exact ⟨[userMessageOf userInput,
                { role := "agent", content := extractAgentReply data }],
              by simp [applyOp, submitMessage, submitMessagePre, submitMessagePost, h, hok]⟩
        · exact ⟨[userMessageOf userInput],
            by simp [applyOp, submitMessage, submitMessagePre, submitMessagePost, h, hok]⟩
  | setInput s => exact ⟨[], by simp [applyOp]⟩
  | initIds sid uid => exact ⟨[], by simp [applyOp]⟩
  | rotateFadeOut => exact ⟨[], by simp [applyOp]⟩
  | rotateAdvance => exact ⟨[], by simp [applyOp]⟩
  | loadingTick => exact ⟨[], by simp [applyOp]⟩
  | loadingReset => exact ⟨[], by simp [applyOp]⟩

/-- C1: for every input whose trimmed form is non-empty, the pre-fetch phase
of `submitMessage` appends exactly one user message to the conversation and
only then produces the request payload handed to the network; and on a
successful round trip whose body has `output_data.content = c` with `c`
non-empty, the conversation gains exactly two messages in order: the user
message, then the agent message with content `c`. -/
theorem C1_user_message_first_then_agent_on_success
    (st : WidgetState) (userInput c : String) (status : Nat)
    (h : jsTrim userInput ≠ "") (hc : c ≠ "") (hok : statusOk status = true) :
    (submitMessagePre st userInput).1.conversation
        = st.conversation ++ [userMessageOf userInput]
    ∧ (submitMessagePre st userInput).2
        = some { message := userMessageOf userInput
                 stateful := true
                 stream := false
                 user_id := st.userId
                 session_id := st.sessionId
                 verbose := false }
    ∧ (submitMessage st userInput
          (.response status (.parsed { output_data := some { content := some c } }))).1.conversation
        = st.conversation ++ [userMessageOf userInput, { role := "agent", content := c }] := by
  refine ⟨?_, ?_, ?_⟩ <;>
    simp [submitMessage, submitMessagePre, submitMessagePost, extractAgentReply, h, hc, hok]

/-- C1 witness at a concrete input and response. -/
theorem C1_user_message_first_then_agent_on_success_witness :
    (submitMessage initialState "  hi  "
        (.response 200 (.parsed { output_data := some { content := some "Hello" } }))).1.conversation
      = [{ role := "user", content := "hi" }, { role := "agent", content := "Hello" }] := by
  have h := C1_user_message_first_then_agent_on_success initialState "  hi  " "Hello" 200
    (by decide) (by decide) (by decide)
  exact h.2.2.trans (by decide)

/-- C2: for every input whose trimmed form is empty, `submitMessage` is a
no-op: the whole widget state is unchanged (so the conversation length and
the error are unchanged) and no request payload is produced, meaning no
network call occurs. -/
theorem C2_empty_input_is_noop (st : WidgetState) (userInput : String) (r : FetchResult)
    (h : jsTrim userInput = "") :
    submitMessage st userInput r = (st, none) := by
  simp [submitMessage, submitMessagePre, h]

/-- C2 witness at a whitespace-only input. -/
theorem C2_empty_input_is_noop_witness :
    submitMessage initialState " \t " (.networkError "down") = (initialState, none) :=
  C2_empty_input_is_noop initialState " \t " (.networkError "down") (by decide)

/-- C5: for every input whose trimmed form is non-empty, every completed
execution of `submitMessage` — whatever the fetch outcome — leaves the
loading flag false. -/
theorem C5_loading_flag_cleared (st : WidgetState) (userInput : String) (r : FetchResult)
    (h : jsTrim userInput ≠ "") :
    (submitMessage st userInput r).1.isLoading = false := by
  cases r with
  | networkError msg =>
    simp [submitMessage, submitMessagePre, submitMessagePost, h]
  | response status body =>
    by_cases hok : statusOk status = true
    · cases body with
      | parseError msg =>
        simp [submitMessage, submitMessagePre, submitMessagePost, h, hok]
      | parsed data =>
        simp [submitMessage, submitMessagePre, submitMessagePost, h, hok]
    · simp [submitMessage, submitMessagePre, submitMessagePost, h, hok]

/-- C5 witness at a concrete failing round trip. -/
theorem C5_loading_flag_cleared_witness :
    (submitMessage initialState "hi" (.networkError "down")).1.isLoading = false :=
  C5_loading_flag_cleared initialState "hi" (.networkError "down") (by decide)

/-- C3: for every failing submission — network failure, non-2xx status, or
JSON parse failure, as captured by `failureDescription` — the conversation
gains exactly the user message and no agent message, the error state is set
to the textual description of the failure, and the loading flag ends
false. -/
theorem C3_failure_appends_only_user_and_sets_error
    (st : WidgetState) (userInput d : String) (r : FetchResult)
    (h : jsTrim userInput ≠ "") (hd : failureDescription r = some d) :
    (submitMessage st userInput r).1.conversation
        = st.conversation ++ [userMessageOf userInput]
    ∧ (submitMessage st userInput r).1.error = some d
    ∧ (submitMessage st userInput r).1.isLoading = false := by
  cases r with
  | networkError msg =>
    have hdm : msg = d := by simpa [failureDescription] using hd
    subst hdm
    refine ⟨?_, ?_, ?_⟩ <;>
      simp [submitMessage, submitMessagePre, submitMessagePost, h]
  | response status body =>
    by_cases hok : statusOk status = true
    · cases body with
      | parseError msg =>
        have hdm : msg = d := by simpa [failureDescription, hok] using hd
        subst hdm
        refine ⟨?_, ?_, ?_⟩ <;>
          simp [submitMessage, submitMessagePre, submitMessagePost, h, hok]
      | parsed data =>
        exact absurd hd (by simp [failureDescription, hok])
    · have hdm : ("Server error: " ++ toString status) = d := by
        simpa [failureDescription, hok] using hd
      subst hdm
      refine ⟨?_, ?_, ?_⟩ <;>
        simp [submitMessage, submitMessagePre, submitMessagePost, h, hok]

/-- C3 witness at a concrete HTTP 500 response. -/
theorem C3_failure_appends_only_user_and_sets_error_witness :
    (submitMessage initialState "hi"
        (.response 500 (.parsed { output_data := none }))).1.conversation
      = [{ role := "user", content := "hi" }]
    ∧ (submitMessage initialState "hi"
        (.response 500 (.parsed { output_data := none }))).1.error
      = some "Server error: 500"
    ∧ (submitMessage initialState "hi"
        (.response 500 (.parsed { output_data := none }))).1.isLoading = false := by
  have h := C3_failure_appends_only_user_and_sets_error initialState "hi"
    ("Server error: " ++ toString 500)
    (.response 500 (.parsed { output_data := none })) (by decide) (by decide)
  exact ⟨h.1.trans (by decide), h.2.1.trans (by decide), h.2.2⟩

/-- C4: on a successful round trip (2xx status, parsed body) whose body has
no `output_data.content` — `output_data` absent, or present without a
`content` field — the appended agent message content equals the literal
fallback `noValidResponse` (which is not the empty string), and no error is
set. -/
theorem C4_missing_content_gets_fallback
    (st : WidgetState) (userInput : String) (status : Nat) (body : ResponseBody)
    (h : jsTrim userInput ≠ "") (hok : statusOk status = true)
    (hmiss : body.output_data = none ∨ body.output_data = some { content := none }) :
    (submitMessage st userInput (.response status (.parsed body))).1.conversation
        = st.conversation ++ [userMessageOf userInput,
            { role := "agent", content := noValidResponse }]
    ∧ (submitMessage st userInput (.response status (.parsed body))).1.error = none
    ∧ noValidResponse ≠ "" := by
  have hreply : extractAgentReply body = noValidResponse := by
    rcases hmiss with hm | hm <;> simp [extractAgentReply, hm]
  refine ⟨?_, ?_, by decide⟩ <;>
    simp [submitMessage, submitMessagePre, submitMessagePost, h, hok, hreply]

/-- C4 witness at a concrete body with `output_data` absent. -/
theorem C4_missing_content_gets_fallback_witness :
    (submitMessage initialState "hi"
        (.response 200 (.parsed { output_data := none }))).1.conversation
      = [{ role := "user", content := "hi" },
         { role := "agent", content := "No valid response received from agent." }]
    ∧ (submitMessage initialState "hi"
        (.response 200 (.parsed { output_data := none }))).1.error = none := by
  have h := C4_missing_content_gets_fallback initialState "hi" 200 { output_data := none }
    (by decide) (by decide) (Or.inl rfl)
  exact ⟨h.1.trans (by decide), h.2.1⟩

/-- C6: the conversation is append-only: any sequence of widget state
transitions (submissions with any fetch outcome, input edits, id
initialization, prompt rotation, loading animation) only ever extends the
conversation at the end, so every earlier conversation state is a prefix of
every later one; no message is deleted, edited, or reordered. -/
theorem C6_conversation_append_only (ops : List WidgetOp) (st : WidgetState) :
    ∃ tail, (applyOps ops st).conversation = st.conversation ++ tail := by
  induction ops generalizing st with
  | nil => exact ⟨[], by simp [applyOps]⟩
  | cons op rest ih =>
    obtain ⟨t1, h1⟩ := applyOp_conversation_extends op st
    obtain ⟨t2, h2⟩ := ih (applyOp op st)
    refine ⟨t1 ++ t2, ?_⟩
    have hstep : applyOps (op :: rest) st = applyOps rest (applyOp op st) := rfl
    rw [hstep, h2, h1, List.append_assoc]

/-- C7: the identifier bootstrap is idempotent within one storage context
(a second `getSessionId` call, reading the storage left by the first,
returns the same id); every id returned by `getSessionId` or `getUserId`
has at most 32 characters; and a stored id longer than 32 characters is
treated as malformed and replaced by a freshly generated one, which is also
written back to storage. -/
theorem C7_identifier_bootstrap_properties
    (stored : Option String) (fresh fresh2 overlong : String)
    (hfresh : generateId fresh ≠ "")
    (hover : 32 < overlong.length) :
    (getSessionId true (storageAfter stored (getSessionId true stored fresh).2) fresh2).1
        = (getSessionId true stored fresh).1
    ∧ (∀ (hw : Bool) (st : Option String) (f : String),
        ((getSessionId hw st f).1).length ≤ 32 ∧ ((getUserId hw st f).1).length ≤ 32)
    ∧ getSessionId true (some overlong) fresh
        = (generateId fresh, some (generateId fresh)) := by
  have hbound : ∀ (hw : Bool) (st : Option String) (f : String),
      ((getSessionId hw st f).1).length ≤ 32 ∧ ((getUserId hw st f).1).length ≤ 32 := by
    intro hw st f
    cases hw with
    | false => exact ⟨by simp [getSessionId], by simp [getUserId]⟩
    | true =>
      cases hv : validStored st with
      | some s =>
        constructor
        · simpa [getSessionId, hv] using validStored_length_le st s hv
        · simpa [getUserId, hv] using validStored_length_le st s hv
      | none =>
        constructor
        · simpa [getSessionId, hv] using generateId_length_le f
        · simpa [getUserId, hv] using generateId_length_le f
  refine ⟨?_, hbound, ?_⟩
  · cases hv : validStored stored with
    | some s =>
      simp [getSessionId, hv, storageAfter]
    | none =>
      have hval : validStored (some (generateId fresh)) = some (generateId fresh) := by
        simp [validStored, hfresh, generateId_length_le fresh]
      simp [getSessionId, hv, storageAfter, hval]
  · have h0 : overlong ≠ "" := by
      intro he
      rw [he] at hover
      exact absurd hover (by decide)
    have h32 : ¬ overlong.length ≤ 32 := by omega
    have hv : validStored (some overlong) = none := by
      simp [validStored, h0, h32]
    simp [getSessionId, hv]

/-- C7 witness: a concrete empty storage, fresh uuid strings, and a
33-character stored id. -/
theorem C7_identifier_bootstrap_properties_witness :
    (getSessionId true (storageAfter none (getSessionId true none "abc-def").2) "zzz-www").1
        = (getSessionId true none "abc-def").1
    ∧ getSessionId true (some "aaaaaaaaaaaaaaaaaaaaaaaaaaaaaaaaa") "abc-def"
        = (generateId "abc-def", some (generateId "abc-def")) := by
  have h := C7_identifier_bootstrap_properties none "abc-def" "zzz-www"
    "aaaaaaaaaaaaaaaaaaaaaaaaaaaaaaaaa" (by decide) (by decide)
  exact ⟨h.1, h.2.2⟩

/-- C8: every request to the Proxy Endpoint whose method is not POST is
answered with status 405 and causes no upstream call.  (The handler is
modelled from the spec, `pages/api/proxy.js` not being among the available
sources.) -/
theorem C8_non_post_rejected (method : String) (upstreamStatus : Nat)
    (h : method ≠ "POST") :
    proxyHandler method upstreamStatus = { status := 405, upstreamCalled := false } := by
  simp [proxyHandler, h]

/-- C8 witness: a GET request. -/
theorem C8_non_post_rejected_witness :
    proxyHandler "GET" 200 = { status := 405, upstreamCalled := false } :=
  C8_non_post_rejected "GET" 200 (by decide)

/-- C9: on a successful round trip whose body has `output_data.content`
present but equal to the empty string, the appended agent message content
equals the literal fallback `noValidResponse`, not the empty string: the
code tests the content for truthiness, so present-but-empty behaves like
absent. -/
theorem C9_empty_content_gets_fallback
    (st : WidgetState) (userInput : String) (status : Nat)
    (h : jsTrim userInput ≠ "") (hok : statusOk status = true) :
    (submitMessage st userInput
        (.response status (.parsed { output_data := some { content := some "" } }))).1.conversation
      = st.conversation ++ [userMessageOf userInput,
          { role := "agent", content := noValidResponse }] := by
  simp [submitMessage, submitMessagePre, submitMessagePost, extractAgentReply, h, hok]

/-- C9 witness at a concrete 200 response with empty content. -/
theorem C9_empty_content_gets_fallback_witness :
    (submitMessage initialState "hi"
        (.response 200 (.parsed { output_data := some { content := some "" } }))).1.conversation
      = [{ role := "user", content := "hi" },
         { role := "agent", content := "No valid response received from agent." }] := by
  exact (C9_empty_content_gets_fallback initialState "hi" 200 (by decide) (by decide)).trans
    (by decide)

/-- C10: for every input whose trimmed form is non-empty, the user message
appended to the conversation and the message embedded in the request
payload both carry the trimmed input as content, and whenever the raw input
differs from its trimmed form the stored content differs from the raw
input. -/
theorem C10_contents_are_trimmed
    (st : WidgetState) (userInput : String) (r : FetchResult)
    (h : jsTrim userInput ≠ "") :
    (submitMessagePre st userInput).1.conversation
        = st.conversation ++ [{ role := "user", content := jsTrim userInput }]
    ∧ (∃ p, (submitMessage st userInput r).2 = some p
        ∧ p.message.content = jsTrim userInput)
    ∧ (userInput ≠ jsTrim userInput →
        ({ role := "user", content := jsTrim userInput } : Message).content ≠ userInput) := by
  refine ⟨?_, ?_, ?_⟩
  · simp [submitMessagePre, userMessageOf, h]
  · refine ⟨{ message := userMessageOf userInput
              stateful := true
              stream := false
              user_id := st.userId
              session_id := st.sessionId
              verbose := false }, ?_, rfl⟩
    simp [submitMessage, submitMessagePre, h]
  · intro hne hc
    exact hne hc.symm

/-- C10 witness at an input with surrounding whitespace. -/
theorem C10_contents_are_trimmed_witness :
    (submitMessagePre initialState "  hi  ").1.conversation
        = [{ role := "user", content := "hi" }]
    ∧ (∃ p, (submitMessage initialState "  hi  " (.networkError "down")).2 = some p
        ∧ p.message.content = jsTrim "  hi  ")
    ∧ ({ role := "user", content := jsTrim "  hi  " } : Message).content ≠ "  hi  " := by
  have h := C10_contents_are_trimmed initialState "  hi  " (.networkError "down") (by decide)
  exact ⟨h.1.trans (by decide), h.2.1, h.2.2 (by decide)⟩
